import Mathlib

/-!
Verification development for the STBLN skeleton-action-recognition model
(`src/model/stbln.py`).

The development has three layers, each a shallow embedding of the Python
source:

* a **shape semantics**: every tensor operation used by the model is given
  its dynamic shape behaviour (including the runtime shape checks that make
  it raise), as a function `Shape → Except ShapeErr Shape`;
* an **initialization model**: `weights_init` is embedded as a pure function
  from a module descriptor and the `bs` divisor to the initialization scheme
  it applies to the weight and bias of that module;
* a **value semantics** over `ℚ`: tensors are dependent functions indexed by
  `Fin`, batch normalization threads its persistent running statistics
  explicitly, and dropout threads an explicit stream of uniform samples.
  The scalar primitive `1 / sqrt x` used by batch normalization is not
  rational, so the value semantics is parametric in a function
  `rsq : ℚ → ℚ` standing for the runtime's reciprocal square root; every
  theorem below is proved for all `rsq`.
-/

/-! ## Shape semantics of the tensor runtime -/

/-- A tensor shape, as in `x.size()`. -/
abbrev Shape := List ℕ

/-- The site of a runtime shape failure. -/
inductive ShapeErr
  | conv       -- channel / minimum-size check of `nn.Conv2d`
  | matmul     -- inner-dimension check of `torch.matmul`
  | view       -- element-count check of `Tensor.view`
  | bnorm      -- feature-count check of `nn.BatchNorm1d/2d`
  | badd       -- broadcasting check of tensor addition
  | linear     -- feature check of `nn.Linear`
  deriving DecidableEq

/-- `List.prod` of a shape: the number of elements of a tensor. -/
def prodS (s : Shape) : ℕ := s.foldr (· * ·) 1

/-- Shape behaviour of `nn.Conv2d(cin, cout, (kh, kw), padding=(ph, pw),
stride=(sh, sw))` on a 4-D input. -/
def conv2dShape (cout cin kh kw ph pw sh sw : ℕ) : Shape → Except ShapeErr Shape
  | [n, c, h, w] =>
    if c = cin ∧ kh ≤ h + 2 * ph ∧ kw ≤ w + 2 * pw ∧ 0 < sh ∧ 0 < sw then
      .ok [n, cout, (h + 2 * ph - kh) / sh + 1, (w + 2 * pw - kw) / sw + 1]
    else .error .conv
  | _ => .error .conv

/-- Shape behaviour of `nn.BatchNorm2d(c)` on a 4-D input. -/
def batchNorm2dShape (c : ℕ) : Shape → Except ShapeErr Shape
  | [n, c', h, w] => if c' = c then .ok [n, c', h, w] else .error .bnorm
  | _ => .error .bnorm

/-- Shape behaviour of `nn.BatchNorm1d(c)` on a 3-D input. -/
def batchNorm1dShape (c : ℕ) : Shape → Except ShapeErr Shape
  | [n, c', l] => if c' = c then .ok [n, c', l] else .error .bnorm
  | _ => .error .bnorm

/-- Shape behaviour of `torch.matmul` between a batched 3-D tensor and a
2-D matrix. -/
def matmul3Shape (s m : Shape) : Except ShapeErr Shape :=
  match s, m with
  | [n, a, k], [k', j] => if k = k' then .ok [n, a, j] else .error .matmul
  | _, _ => .error .matmul

/-- Shape behaviour of `Tensor.view` with fully explicit target dimensions
(on a contiguous tensor): the element count must be preserved. -/
def viewShape (tgt s : Shape) : Except ShapeErr Shape :=
  if prodS tgt = prodS s then .ok tgt else .error .view

/-- Shape behaviour of `Tensor.view(pre..., -1)`: the product of the given
dimensions must be nonzero and divide the element count, and the trailing
dimension is inferred. -/
def viewInferShape (pre s : Shape) : Except ShapeErr Shape :=
  if 0 < prodS pre ∧ prodS pre ∣ prodS s then
    .ok (pre ++ [prodS s / prodS pre])
  else .error .view

/-- Result shape of broadcasting two shapes of equal rank against each
other, as in `a + b`. -/
def bcastDims : Shape → Shape → Option Shape
  | [], [] => some []
  | a :: as_, b :: bs_ =>
    match bcastDims as_ bs_ with
    | none => none
    | some rest =>
      if a = b then some (a :: rest)
      else if a = 1 then some (b :: rest)
      else if b = 1 then some (a :: rest)
      else none
  | _, _ => none

/-- Shape behaviour of out-of-place tensor addition `a + b`. -/
def addShape (a b : Shape) : Except ShapeErr Shape :=
  match bcastDims a b with
  | some s => .ok s
  | none => .error .badd

/-- Shape behaviour of in-place addition `a += b`: `b` must broadcast to
the shape of `a` (the destination shape cannot grow). -/
def inplaceAddShape (a b : Shape) : Except ShapeErr Shape :=
  if a.length = b.length ∧ (List.zip b a).all (fun p => p.1 == p.2 || p.1 == 1) then
    .ok a
  else .error .badd

/-- Drop dimension `d` of a shape, as `Tensor.mean(d)` does. -/
def meanDimShape (d : ℕ) (s : Shape) : Shape := s.eraseIdx d

/-- Shape behaviour of `nn.Linear(inF, outF)` on a 2-D input. -/
def linearShape (inF outF : ℕ) : Shape → Except ShapeErr Shape
  | [n, f] => if f = inF then .ok [n, outF] else .error .linear
  | _ => .error .linear

/-! ## Shape semantics of the model's modules -/

/-- Shape behaviour of `BilinearMapping.forward` for a module built with
`BilinearMapping(cin, cout, d1, d2)`.  Follows the source line by line:
`x_a = x.view(N, C*T, V)`; for each of the three subsets,
`z = g_conv[i](torch.matmul(x_a, A[i]).view(N, C, T, A.size(2)))` and the
accumulation `hidden_ = z + hidden_`; then `hidden_ = bn(hidden_)`;
`hidden_ += gcn_residual(x)` (in place); `relu` preserves the shape. -/
def BilinearMapping.forwardShape (cin cout d1 d2 : ℕ) (s : Shape) :
    Except ShapeErr Shape :=
  match s with
  | [n, c, t, v] => do
    let xa ← viewShape [n, c * t, v] [n, c, t, v]
    let mm ← matmul3Shape xa [d1, d2]
    let zin ← viewShape [n, c, t, d2] mm
    let z0 ← conv2dShape cout cin 1 1 0 0 1 1 zin
    let z1 ← conv2dShape cout cin 1 1 0 0 1 1 zin
    let z2 ← conv2dShape cout cin 1 1 0 0 1 1 zin
    let h01 ← addShape z1 z0
    let h ← addShape z2 h01
    let hb ← batchNorm2dShape cout h
    let r ←
      if d1 ≠ d2 then conv2dShape cout cin d2 d1 0 0 1 1 [n, c, t, v]
      else conv2dShape cout cin 1 1 0 0 1 1 [n, c, t, v]
    let rb ← batchNorm2dShape cout r
    inplaceAddShape hb rb
  | _ => .error .view

/-- Shape behaviour of `TemporalConvolution.forward` for a module built
with `TemporalConvolution(cin, cout, kernel_size_joint=kj, kernel_size_=k,
stride=st)`: a conv with kernel `(k, kj)`, padding `((k-1)/2, 0)`, stride
`(st, 1)`, then batch normalization. -/
def TemporalConvolution.forwardShape (cin cout kj k st : ℕ) (s : Shape) :
    Except ShapeErr Shape := do
  let y ← conv2dShape cout cin k kj ((k - 1) / 2) 0 st 1 s
  batchNorm2dShape cout y

/-- Shape behaviour of `ST_BLN_block.forward` for a block built with
`ST_BLN_block(cin, cout, d1, d2, stride=st, residual=r)`:
`relu(tcn(gcn(x)) + residual(x))`, where the residual path is the constant
`0` when `r = false` (adding the scalar zero keeps the shape), and a
`TemporalConvolution` with joint kernel `d1` (when `d1 ≠ d2`) or `1`
otherwise. -/
def ST_BLN_block.forwardShape (cin cout d1 d2 st : ℕ) (residual : Bool)
    (s : Shape) : Except ShapeErr Shape := do
  let g ← BilinearMapping.forwardShape cin cout d1 d2 s
  let m ← TemporalConvolution.forwardShape cout cout 1 9 st g
  if residual then
    let r ← TemporalConvolution.forwardShape cin cout
      (if d1 ≠ d2 then d1 else 1) 9 st s
    addShape m r
  else
    .ok m

/-- Shape behaviour of `STBLN.forward` for a network built with
`STBLN(numClass, numPoint, numPerson, inCh)`.  Follows the source:
permute to `[N, M, V, C, T]` and view as `[N, M*V*C, T]`; `data_bn`
(a `BatchNorm1d(numPerson * inCh * numPoint)`); view back, permute to
`[N, M, C, T, V]` and view as `[N*M, C, T, V]`; the seven blocks
(dropout preserves shapes); `view(N, M, c_new, -1)`; `mean(3)`; `mean(1)`;
the final `fc = nn.Linear(64, numClass)`. -/
def STBLN.forwardShape (numClass numPoint numPerson inCh : ℕ) (s : Shape) :
    Except ShapeErr Shape :=
  match s with
  | [n, c, t, v, m] => do
    let xa ← viewShape [n, m * v * c, t] [n, m, v, c, t]
    let xb ← batchNorm1dShape (numPerson * inCh * numPoint) xa
    let xc ← viewShape [n, m, v, c, t] xb
    let xd ← viewShape [n * m, c, t, v] xc
    let x1 ← ST_BLN_block.forwardShape 2 8 numPoint numPoint 1 false xd
    let x2 ← ST_BLN_block.forwardShape 8 16 numPoint numPoint 1 true x1
    let x3 ← ST_BLN_block.forwardShape 16 16 numPoint numPoint 1 true x2
    let x4 ← ST_BLN_block.forwardShape 16 32 numPoint numPoint 1 true x3
    let x5 ← ST_BLN_block.forwardShape 32 32 numPoint numPoint 1 true x4
    let x6 ← ST_BLN_block.forwardShape 32 64 numPoint numPoint 1 true x5
    let x7 ← ST_BLN_block.forwardShape 64 64 numPoint numPoint 1 true x6
    match x7 with
    | [_, cn, _, _] => do
      let xp ← viewInferShape [n, m, cn] x7
      let pooled := meanDimShape 1 (meanDimShape 3 xp)
      linearShape 64 numClass pooled
    | _ => .error .view
  | _ => .error .view

/-! ## Initialization model (`weights_init`) -/

/-- An initialization applied to one parameter tensor. -/
inductive WInit
  | kaimingFanOut            -- `nn.init.kaiming_normal_(w, mode='fan_out')`
  | normalVar (mean v : ℚ)   -- `nn.init.normal_(w, mean, sqrt v)` (variance `v`)
  | constV (c : ℚ)           -- `nn.init.constant_(w, c)`
  | libDefault               -- left untouched (library default)
  deriving DecidableEq

/-- The initialization applied to the weight and the bias of one module. -/
structure LayerInit where
  weight : WInit
  bias : WInit
  deriving DecidableEq

/-- A descriptor of the module passed to `weights_init`, carrying exactly
the data the function inspects: the class of the module and (for a
convolution) the sizes of its weight, `[cout, cin, kh, kw]`. -/
inductive TorchModule
  | conv2d (cout cin kh kw : ℕ)
  | batchNorm2d (c : ℕ)
  | batchNorm1d (c : ℕ)
  | linear (inF outF : ℕ)
  deriving DecidableEq

/-- Embedding of `weights_init(module_, bs)`.  For a `Conv2d` with
`bs == 1`: Kaiming-normal weight (fan-out), zero bias.  For a `Conv2d`
with `bs != 1`: weight drawn from a normal with standard deviation
`sqrt(2 / (w.size(0) * w.size(1) * w.size(2) * bs))` — the sizes are
`cout`, `cin` and `kh` — and zero bias.  For a `BatchNorm2d`: constant
weight `bs`, zero bias.  For a `Linear`: normal weight of variance
`2 / bs`, bias untouched.  A `BatchNorm1d` matches none of the
`isinstance` branches and is left untouched. -/
def weights_init (m : TorchModule) (bs : ℚ) : LayerInit :=
  match m with
  | .conv2d cout cin kh _kw =>
    if bs = 1 then ⟨.kaimingFanOut, .constV 0⟩
    else ⟨.normalVar 0 (2 / ((cout : ℚ) * (cin : ℚ) * (kh : ℚ) * bs)), .constV 0⟩
  | .batchNorm2d _ => ⟨.constV bs, .constV 0⟩
  | .batchNorm1d _ => ⟨.libDefault, .libDefault⟩
  | .linear _ _ => ⟨.normalVar 0 (2 / bs), .libDefault⟩

/-- The initializations `BilinearMapping.__init__(cin, cout, d1, d2)`
applies to its layers: each of the three `g_conv` 1×1 convolutions goes
through `weights_init(·, bs=3)`; when `d1 ≠ d2` the residual projection
(conv of kernel `(d2, d1)` and its `BatchNorm2d`) goes through
`weights_init(·, bs=1)`, otherwise the residual 1×1 convolution and its
`BatchNorm2d` are constructed without any `weights_init` call; the final
`bn` goes through `weights_init(·, bs=1e-6)`. -/
structure BilinearInitPlan where
  g_conv : Fin 3 → LayerInit
  res_conv : LayerInit
  res_bn : LayerInit
  bn : LayerInit

/-- See `BilinearInitPlan`. -/
def BilinearMapping.initPlan (cin cout d1 d2 : ℕ) : BilinearInitPlan where
  g_conv := fun _ => weights_init (.conv2d cout cin 1 1) 3
  res_conv :=
    if d1 ≠ d2 then weights_init (.conv2d cout cin d2 d1) 1
    else ⟨.libDefault, .libDefault⟩
  res_bn :=
    if d1 ≠ d2 then weights_init (.batchNorm2d cout) 1
    else ⟨.libDefault, .libDefault⟩
  bn := weights_init (.batchNorm2d cout) (1 / 1000000)

/-! ## Value semantics: tensors and primitive operations -/

/-- A stream of uniform samples in `[0, 1)`, standing for the state of the
runtime's random number generator. -/
abbrev RNG := ℕ → ℚ

/-- A 5-D tensor `[N, C, T, V, M]` with rational entries. -/
abbrev Tensor5 (n c t v m : ℕ) := Fin n → Fin c → Fin t → Fin v → Fin m → ℚ

/-- A 4-D tensor `[N, C, T, V]` with rational entries. -/
abbrev Tensor4 (n c t v : ℕ) := Fin n → Fin c → Fin t → Fin v → ℚ

/-- A 3-D tensor `[N, C, L]` with rational entries. -/
abbrev Tensor3 (n c l : ℕ) := Fin n → Fin c → Fin l → ℚ

/-- A 2-D tensor `[N, C]` with rational entries. -/
abbrev Tensor2 (n c : ℕ) := Fin n → Fin c → ℚ

/-- `a * B + b < A * B`: the bound for a flattened pair of indices. -/
theorem flat_lt {a A b B : ℕ} (ha : a < A) (hb : b < B) :
    a * B + b < A * B := by
  calc a * B + b < a * B + B := by omega
    _ = (a + 1) * B := by ring
    _ ≤ A * B := Nat.mul_le_mul_right B ha

/-- Split an index of `Fin (A * B)` into its two row-major components. -/
def fin2 {A B : ℕ} (j : Fin (A * B)) : Fin A × Fin B :=
  have hA : j.val < B * A := by
    have h := j.isLt; rw [show B * A = A * B by ring]; exact h
  have hB : 0 < B := by
    rcases Nat.eq_zero_or_pos B with h0 | h0
    · exfalso; subst h0; have h := j.isLt; simp at h
    · exact h0
  ⟨⟨j.val / B, Nat.div_lt_of_lt_mul hA⟩, ⟨j.val % B, Nat.mod_lt _ hB⟩⟩

/-- Split an index of `Fin (A * B * C)` into its three row-major
components. -/
def fin3 {A B C : ℕ} (j : Fin (A * B * C)) : Fin A × Fin B × Fin C :=
  have hA : j.val < B * C * A := by
    have h := j.isLt; rw [show B * C * A = A * B * C by ring]; exact h
  have hC : 0 < C := by
    rcases Nat.eq_zero_or_pos C with h0 | h0
    · exfalso; subst h0; have h := j.isLt; simp at h
    · exact h0
  have hB : 0 < B := by
    rcases Nat.eq_zero_or_pos B with h0 | h0
    · exfalso; subst h0; have h := j.isLt; simp at h
    · exact h0
  ⟨⟨j.val / (B * C), Nat.div_lt_of_lt_mul hA⟩,
   ⟨j.val / C % B, Nat.mod_lt _ hB⟩,
   ⟨j.val % C, Nat.mod_lt _ hC⟩⟩

/-- Pointwise `nn.ReLU`. -/
def relu4 {n c t v : ℕ} (x : Tensor4 n c t v) : Tensor4 n c t v :=
  fun a b i j => max 0 (x a b i j)

/-- `nn.Conv2d(cin, cout, 1)`: a 1×1 convolution, i.e. a pointwise linear
map on channels plus a bias.  It preserves the spatial extents. -/
def conv1x1 {n cin t v : ℕ} (cout : ℕ) (w : Fin cout → Fin cin → ℚ)
    (b : Fin cout → ℚ) (x : Tensor4 n cin t v) : Tensor4 n cout t v :=
  fun a o i j => b o + ∑ ic : Fin cin, w o ic * x a ic i j

/-- `nn.Conv2d(cin, cout, (k, 1), padding=(p, 0), stride=(s, 1))`: a
convolution along the time axis only (kernel width 1 in the joint axis).
Positions of the kernel that fall into the zero padding contribute `0`. -/
def convTime {n cin t v : ℕ} (cout k p s : ℕ)
    (w : Fin cout → Fin cin → Fin k → ℚ) (b : Fin cout → ℚ)
    (x : Tensor4 n cin t v) : Tensor4 n cout ((t + 2 * p - k) / s + 1) v :=
  fun a o i j =>
    b o + ∑ ic : Fin cin, ∑ r : Fin k,
      w o ic r *
        (if h : p ≤ i.val * s + r.val ∧ i.val * s + r.val - p < t then
          x a ic ⟨i.val * s + r.val - p, h.2⟩ j
        else 0)

/-- The persistent state of a batch-normalization layer: learned scale and
shift, and the running statistics updated by training-mode forward passes.
A fresh layer has `gamma = 1`, `beta = 0`, `rmean = 0`, `rvar = 1`. -/
structure BN (c : ℕ) where
  gamma : Fin c → ℚ
  beta : Fin c → ℚ
  rmean : Fin c → ℚ
  rvar : Fin c → ℚ

/-- A fresh batch-normalization state (the library defaults). -/
def BN.fresh (c : ℕ) : BN c :=
  ⟨fun _ => 1, fun _ => 0, fun _ => 0, fun _ => 1⟩

/-- `nn.BatchNorm2d` with the default `momentum=0.1`, `eps=1e-5`.  In
training mode the batch statistics (biased variance) normalize the input
and the running statistics are updated (with the unbiased variance); in
evaluation mode the stored running statistics normalize the input and the
state is returned unchanged.  `rsq` is the runtime's `1 / sqrt ·`. -/
def batchNorm2d {n c t v : ℕ} (rsq : ℚ → ℚ) (training : Bool) (bn : BN c)
    (x : Tensor4 n c t v) : Tensor4 n c t v × BN c :=
  if training then
    let cnt : ℚ := ((n * t * v : ℕ) : ℚ)
    let mu : Fin c → ℚ := fun ch =>
      (∑ a : Fin n, ∑ i : Fin t, ∑ j : Fin v, x a ch i j) / cnt
    let varb : Fin c → ℚ := fun ch =>
      (∑ a : Fin n, ∑ i : Fin t, ∑ j : Fin v, (x a ch i j - mu ch) ^ 2) / cnt
    let varu : Fin c → ℚ := fun ch =>
      (∑ a : Fin n, ∑ i : Fin t, ∑ j : Fin v, (x a ch i j - mu ch) ^ 2)
        / (cnt - 1)
    (fun a ch i j =>
      bn.gamma ch * ((x a ch i j - mu ch) * rsq (varb ch + 1 / 100000))
        + bn.beta ch,
     ⟨bn.gamma, bn.beta,
      fun ch => (1 - 1 / 10) * bn.rmean ch + (1 / 10) * mu ch,
      fun ch => (1 - 1 / 10) * bn.rvar ch + (1 / 10) * varu ch⟩)
  else
    (fun a ch i j =>
      bn.gamma ch * ((x a ch i j - bn.rmean ch) * rsq (bn.rvar ch + 1 / 100000))
        + bn.beta ch,
     bn)

/-- `nn.BatchNorm1d` on a 3-D input, same conventions as `batchNorm2d`
(statistics taken over the batch and length axes). -/
def batchNorm1d {n c l : ℕ} (rsq : ℚ → ℚ) (training : Bool) (bn : BN c)
    (x : Tensor3 n c l) : Tensor3 n c l × BN c :=
  if training then
    let cnt : ℚ := ((n * l : ℕ) : ℚ)
    let mu : Fin c → ℚ := fun ch => (∑ a : Fin n, ∑ i : Fin l, x a ch i) / cnt
    let varb : Fin c → ℚ := fun ch =>
      (∑ a : Fin n, ∑ i : Fin l, (x a ch i - mu ch) ^ 2) / cnt
    let varu : Fin c → ℚ := fun ch =>
      (∑ a : Fin n, ∑ i : Fin l, (x a ch i - mu ch) ^ 2) / (cnt - 1)
    (fun a ch i =>
      bn.gamma ch * ((x a ch i - mu ch) * rsq (varb ch + 1 / 100000))
        + bn.beta ch,
     ⟨bn.gamma, bn.beta,
      fun ch => (1 - 1 / 10) * bn.rmean ch + (1 / 10) * mu ch,
      fun ch => (1 - 1 / 10) * bn.rvar ch + (1 / 10) * varu ch⟩)
  else
    (fun a ch i =>
      bn.gamma ch * ((x a ch i - bn.rmean ch) * rsq (bn.rvar ch + 1 / 100000))
        + bn.beta ch,
     bn)

/-- `nn.Dropout(p=0.2)`.  In training mode each entry is zeroed when its
uniform sample is below `1/5` and scaled by `1/(1 - 1/5)` otherwise, and
the sample stream advances by the element count; in evaluation mode the
input and the stream pass through unchanged. -/
def dropout {n c t v : ℕ} (training : Bool) (g : RNG) (x : Tensor4 n c t v) :
    Tensor4 n c t v × RNG :=
  if training then
    (fun a b i j =>
      if g (((a.val * c + b.val) * t + i.val) * v + j.val) < 1 / 5 then 0
      else x a b i j / (1 - 1 / 5),
     fun k => g (k + n * c * t * v))
  else (x, g)

/-- `nn.Linear(cin, cout)` on a 2-D input. -/
def linearFwd {n cin : ℕ} (cout : ℕ) (w : Fin cout → Fin cin → ℚ)
    (b : Fin cout → ℚ) (x : Tensor2 n cin) : Tensor2 n cout :=
  fun a o => b o + ∑ i : Fin cin, w o i * x a i

/-! ## Value semantics of the model's modules

The value semantics covers the configuration the concrete `STBLN`
instantiates: `graph_dim1 == graph_dim2` (a single joint dimension `v`),
`in_channels = 2` (the first block is hard-wired to 2 input channels), and
the default temporal kernel 9.  (For `graph_dim1 ≠ graph_dim2` the module
does not produce a well-shaped result at all; this is established at the
shape level, see `BilinearMapping.forwardShape`.) -/

/-- The parameters and persistent state of a
`BilinearMapping(cin, cout, v, v)`: the learned adjacency `rand_graph` of
shape `[3, v, v]`, the three 1×1 `g_conv` convolutions, the residual 1×1
convolution with its `BatchNorm2d`, and the main `BatchNorm2d`. -/
structure BilinearMapping (cin cout v : ℕ) where
  rand_graph : Fin 3 → Fin v → Fin v → ℚ
  g_w : Fin 3 → Fin cout → Fin cin → ℚ
  g_b : Fin 3 → Fin cout → ℚ
  res_w : Fin cout → Fin cin → ℚ
  res_b : Fin cout → ℚ
  res_bn : BN cout
  bn : BN cout

/-- `torch.matmul(x.view(N, C*T, V), A[i]).view(N, C, T, V)`: mixing the
joint axis by the matrix `A i`.  Flattening `(C, T)` and unflattening it
around the matrix product leaves the values untouched, so the composition
is expressed directly on the 4-D tensor. -/
def graphMul {n c t v : ℕ} (x : Tensor4 n c t v) (A : Fin v → Fin v → ℚ) :
    Tensor4 n c t v :=
  fun a b i j => ∑ k : Fin v, x a b i k * A k j

/-- `BilinearMapping.forward` (equal graph dimensions).  Follows the
source: `z_i = g_conv[i](matmul(x_a, A[i]).view(...))` accumulated as
`hidden_ = z + hidden_`, then `hidden_ = bn(hidden_)`, then
`hidden_ += gcn_residual(x)` (the 1×1 residual convolution followed by its
batch normalization), then `relu`.  Returns the output and the module
state with both batch-normalization states updated. -/
def BilinearMapping.forward {n cin t v : ℕ} {cout : ℕ} (rsq : ℚ → ℚ)
    (training : Bool) (p : BilinearMapping cin cout v)
    (x : Tensor4 n cin t v) :
    Tensor4 n cout t v × BilinearMapping cin cout v :=
  let z : Fin 3 → Tensor4 n cout t v := fun i =>
    conv1x1 cout (p.g_w i) (p.g_b i) (graphMul x (p.rand_graph i))
  let hidden0 := z 2 + (z 1 + z 0)
  let hb := batchNorm2d rsq training p.bn hidden0
  let r0 := conv1x1 cout p.res_w p.res_b x
  let rb := batchNorm2d rsq training p.res_bn r0
  (relu4 (hb.1 + rb.1),
   ⟨p.rand_graph, p.g_w, p.g_b, p.res_w, p.res_b, rb.2, hb.2⟩)

/-- The parameters and persistent state of a
`TemporalConvolution(cin, cout)` with the default kernel `(9, 1)`: the
convolution weight `[cout, cin, 9, 1]` (the trailing singleton axis is
dropped), its bias, and the `BatchNorm2d`. -/
structure TemporalConvolution (cin cout : ℕ) where
  w : Fin cout → Fin cin → Fin 9 → ℚ
  b : Fin cout → ℚ
  bn : BN cout

/-- `TemporalConvolution.forward` (kernel `(9, 1)`, padding `(4, 0)`,
stride `(s, 1)`): `bn(t_conv(x))`. -/
def TemporalConvolution.forward {n cin t v : ℕ} {cout : ℕ} (rsq : ℚ → ℚ)
    (training : Bool) (s : ℕ) (p : TemporalConvolution cin cout)
    (x : Tensor4 n cin t v) :
    Tensor4 n cout ((t + 2 * 4 - 9) / s + 1) v × TemporalConvolution cin cout :=
  let y := convTime cout 9 4 s p.w p.b x
  let o := batchNorm2d rsq training p.bn y
  (o.1, ⟨p.w, p.b, o.2⟩)

/-- The parameters and persistent state of an
`ST_BLN_block(cin, cout, v, v, stride, residual)`: its `BilinearMapping`,
its `TemporalConvolution`, and — when constructed with `residual=True` —
the residual `TemporalConvolution` (with `residual=False` the residual
path is the constant `0`). -/
structure ST_BLN_block (cin cout v : ℕ) where
  gcn : BilinearMapping cin cout v
  tcn : TemporalConvolution cout cout
  residual : Option (TemporalConvolution cin cout)

/-- `ST_BLN_block.forward`: `relu(tcn(gcn(x)) + residual(x))`, where the
residual path is the zero tensor (`lambda x: 0`) when the block was built
with `residual=False`. -/
def ST_BLN_block.forward {n cin t v : ℕ} {cout : ℕ} (rsq : ℚ → ℚ)
    (training : Bool) (s : ℕ) (bp : ST_BLN_block cin cout v)
    (x : Tensor4 n cin t v) :
    Tensor4 n cout ((t + 2 * 4 - 9) / s + 1) v × ST_BLN_block cin cout v :=
  let g := BilinearMapping.forward rsq training bp.gcn x
  let m := TemporalConvolution.forward rsq training s bp.tcn g.1
  let r : Tensor4 n cout ((t + 2 * 4 - 9) / s + 1) v ×
      Option (TemporalConvolution cin cout) :=
    match bp.residual with
    | none => (0, none)
    | some rp =>
      let ro := TemporalConvolution.forward rsq training s rp x
      (ro.1, some ro.2)
  (relu4 (m.1 + r.1), ⟨g.2, m.2, r.2⟩)

/-- The parameters and persistent state of an
`STBLN(numClass, numPoint, numPerson, in_channels=2)`: the input
`BatchNorm1d` (its feature count `numPerson * 2 * numPoint` is written in
the row-major order `numPerson * numPoint * 2` of the flattened
`(person, joint, channel)` axis it is applied to), the seven blocks with
the hard-wired channel widths, and the final classifier. -/
structure STBLN (numClass numPoint numPerson : ℕ) where
  data_bn : BN (numPerson * numPoint * 2)
  layer1 : ST_BLN_block 2 8 numPoint
  layer2 : ST_BLN_block 8 16 numPoint
  layer3 : ST_BLN_block 16 16 numPoint
  layer4 : ST_BLN_block 16 32 numPoint
  layer5 : ST_BLN_block 32 32 numPoint
  layer6 : ST_BLN_block 32 64 numPoint
  layer7 : ST_BLN_block 64 64 numPoint
  fc_w : Fin numClass → Fin 64 → ℚ
  fc_b : Fin numClass → ℚ

/-- `x.permute(0, 4, 3, 1, 2).contiguous().view(N, M*V*C, T)` for
`C = 2`: the combined axis enumerates `(person, joint, channel)` in
row-major order. -/
def toDataBnInput {n t v m : ℕ} (x : Tensor5 n 2 t v m) :
    Tensor3 n (m * v * 2) t :=
  fun a j i =>
    let d := fin3 j
    x a d.2.2 i d.2.1 d.1

/-- `x.view(N, M, V, C, T).permute(0, 1, 3, 4, 2).contiguous()
.view(N*M, C, T, V)` for `C = 2`. -/
def fromDataBnOutput {n t v m : ℕ} (y : Tensor3 n (m * v * 2) t) :
    Tensor4 (n * m) 2 t v :=
  fun a c i j =>
    let d := fin2 a
    y d.1 ⟨(d.2.val * v + j.val) * 2 + c.val,
      flat_lt (flat_lt d.2.isLt j.isLt) c.isLt⟩ i

/-- `x.view(N, M, c_new, -1)` applied to the `[N*M, c, t, v]` output of
the block stack: the inferred trailing axis enumerates `(time, joint)` in
row-major order. -/
def toPoolInput {n m c t v : ℕ} (x : Tensor4 (n * m) c t v) :
    Tensor4 n m c (t * v) :=
  fun a p ch k =>
    let d := fin2 k
    x ⟨a.val * m + p.val, flat_lt a.isLt p.isLt⟩ ch d.1 d.2

/-- `Tensor.mean(3)` on a 4-D tensor. -/
def meanLast {n m c l : ℕ} (x : Tensor4 n m c l) : Tensor3 n m c :=
  fun a p ch => (∑ k : Fin l, x a p ch k) / ((l : ℕ) : ℚ)

/-- `Tensor.mean(1)` on a 3-D tensor. -/
def meanPersons {n m c : ℕ} (x : Tensor3 n m c) : Tensor2 n c :=
  fun a ch => (∑ p : Fin m, x a p ch) / ((m : ℕ) : ℚ)

/-- `STBLN.forward`: the data batch-normalization sandwiched between the
reshapes, the seven blocks each preceded by dropout, the global mean over
`(time, joint)` and persons, and the final linear classifier.  Returns the
logits, the updated persistent state, and the advanced sample stream. -/
def STBLN.forward {numClass numPoint numPerson n t : ℕ} (rsq : ℚ → ℚ)
    (training : Bool) (g : RNG) (ps : STBLN numClass numPoint numPerson)
    (x : Tensor5 n 2 t numPoint numPerson) :
    Tensor2 n numClass × STBLN numClass numPoint numPerson × RNG :=
  let b0 := batchNorm1d rsq training ps.data_bn (toDataBnInput x)
  let x0 := fromDataBnOutput b0.1
  let d1 := dropout training g x0
  let l1 := ST_BLN_block.forward rsq training 1 ps.layer1 d1.1
  let d2 := dropout training d1.2 l1.1
  let l2 := ST_BLN_block.forward rsq training 1 ps.layer2 d2.1
  let d3 := dropout training d2.2 l2.1
  let l3 := ST_BLN_block.forward rsq training 1 ps.layer3 d3.1
  let d4 := dropout training d3.2 l3.1
  let l4 := ST_BLN_block.forward rsq training 1 ps.layer4 d4.1
  let d5 := dropout training d4.2 l4.1
  let l5 := ST_BLN_block.forward rsq training 1 ps.layer5 d5.1
  let d6 := dropout training d5.2 l5.1
  let l6 := ST_BLN_block.forward rsq training 1 ps.layer6 d6.1
  let d7 := dropout training d6.2 l6.1
  let l7 := ST_BLN_block.forward rsq training 1 ps.layer7 d7.1
  let pooled := meanPersons (meanLast (toPoolInput l7.1))
  (linearFwd numClass ps.fc_w ps.fc_b pooled,
   ⟨b0.2, l1.2, l2.2, l3.2, l4.2, l5.2, l6.2, l7.2, ps.fc_w, ps.fc_b⟩,
   d7.2)

/-! ## Concrete sample parameters (used for witnesses and counterexamples) -/

/-- A `BilinearMapping` whose tensors are all zero and whose
batch-normalization states are fresh. -/
def BilinearMapping.zero (cin cout v : ℕ) : BilinearMapping cin cout v :=
  ⟨fun _ _ _ => 0, fun _ _ _ => 0, fun _ _ => 0, fun _ _ => 0, fun _ => 0,
   BN.fresh cout, BN.fresh cout⟩

/-- A `TemporalConvolution` whose tensors are all zero and whose
batch-normalization state is fresh. -/
def TemporalConvolution.zero (cin cout : ℕ) : TemporalConvolution cin cout :=
  ⟨fun _ _ _ => 0, fun _ => 0, BN.fresh cout⟩

/-- An `ST_BLN_block` with all-zero tensors, with or without a residual
`TemporalConvolution`. -/
def ST_BLN_block.zero (cin cout v : ℕ) (r : Bool) : ST_BLN_block cin cout v :=
  ⟨BilinearMapping.zero cin cout v, TemporalConvolution.zero cout cout,
   if r then some (TemporalConvolution.zero cin cout) else none⟩

/-- A concrete tiny `STBLN(num_class=1, num_point=1, num_person=1)` with
all-zero tensors and fresh batch-normalization states. -/
def STBLN.sample : STBLN 1 1 1 :=
  ⟨BN.fresh (1 * 1 * 2),
   ST_BLN_block.zero 2 8 1 false, ST_BLN_block.zero 8 16 1 true,
   ST_BLN_block.zero 16 16 1 true, ST_BLN_block.zero 16 32 1 true,
   ST_BLN_block.zero 32 32 1 true, ST_BLN_block.zero 32 64 1 true,
   ST_BLN_block.zero 64 64 1 true, fun _ _ => 0, fun _ => 0⟩

/-- A concrete all-ones input of shape `[1, 2, 2, 1, 1]` for
`STBLN.sample`. -/
def sampleInput : Tensor5 1 2 2 1 1 := fun _ _ _ _ _ => 1

/-! ## Helper lemmas -/

theorem exc_bind_ok (a : Shape) (f : Shape → Except ShapeErr Shape) :
    (Except.ok a >>= f : Except ShapeErr Shape) = f a := rfl

theorem exc_bind_err (e : ShapeErr) (f : Shape → Except ShapeErr Shape) :
    (Except.error e >>= f : Except ShapeErr Shape) = .error e := rfl

theorem bcastDims_self (s : Shape) : bcastDims s s = some s := by
  induction s with
  | nil => rfl
  | cons a as_ ih => simp [bcastDims, ih]

theorem addShape_self (s : Shape) : addShape s s = .ok s := by
  simp [addShape, bcastDims_self]

theorem zip_self_all (s : Shape) :
    (List.zip s s).all (fun p => p.1 == p.2 || p.1 == 1) = true := by
  induction s with
  | nil => rfl
  | cons a as_ ih => simp [List.zip_cons_cons, List.all_cons, ih]

theorem inplaceAddShape_self (s : Shape) : inplaceAddShape s s = .ok s := by
  simp [inplaceAddShape, zip_self_all]

theorem conv2dShape_ok {n c h w : ℕ} (cout cin kh kw ph pw sh sw : ℕ)
    (hc : c = cin) (hh : kh ≤ h + 2 * ph) (hw : kw ≤ w + 2 * pw)
    (hsh : 0 < sh) (hsw : 0 < sw) :
    conv2dShape cout cin kh kw ph pw sh sw [n, c, h, w] =
      .ok [n, cout, (h + 2 * ph - kh) / sh + 1, (w + 2 * pw - kw) / sw + 1] := by
  simp only [conv2dShape]
  rw [if_pos ⟨hc, hh, hw, hsh, hsw⟩]

theorem bilinearShape_ok_aux (cin cout v n t : ℕ) (ht : 1 ≤ t) (hv : 1 ≤ v) :
    BilinearMapping.forwardShape cin cout v v [n, cin, t, v] =
      .ok [n, cout, t, v] := by
  have e1 : prodS [n, cin * t, v] = prodS [n, cin, t, v] := by
    simp only [prodS, List.foldr]; ring
  have hxa : viewShape [n, cin * t, v] [n, cin, t, v] = .ok [n, cin * t, v] := by
    simp [viewShape, e1]
  have hzin : viewShape [n, cin, t, v] [n, cin * t, v] = .ok [n, cin, t, v] := by
    simp [viewShape, e1.symm]
  have hmm : matmul3Shape [n, cin * t, v] [v, v] = .ok [n, cin * t, v] := by
    simp [matmul3Shape]
  have hz := conv2dShape_ok (n := n) (c := cin) (h := t) (w := v)
    cout cin 1 1 0 0 1 1 rfl (by omega) (by omega) one_pos one_pos
  rw [show (t + 2 * 0 - 1) / 1 + 1 = t by omega,
      show (v + 2 * 0 - 1) / 1 + 1 = v by omega] at hz
  have hbn : batchNorm2dShape cout [n, cout, t, v] = .ok [n, cout, t, v] := by
    simp [batchNorm2dShape]
  simp [BilinearMapping.forwardShape, hxa, hmm, hzin, hz, hbn,
    addShape_self, inplaceAddShape_self, exc_bind_ok]

theorem tconvShape_ok_aux (cin cout kj k n t v : ℕ) (hk : Odd k) (ht : 1 ≤ t)
    (hkj : kj ≤ v) :
    TemporalConvolution.forwardShape cin cout kj k 1 [n, cin, t, v] =
      .ok [n, cout, t, v - kj + 1] := by
  obtain ⟨a, ha⟩ := hk
  subst ha
  have hy := conv2dShape_ok (n := n) (c := cin) (h := t) (w := v)
    cout cin (2 * a + 1) kj ((2 * a + 1 - 1) / 2) 0 1 1 rfl
    (by omega) (by omega) one_pos one_pos
  rw [show (2 * a + 1 - 1) / 2 = a by omega] at hy
  rw [show (t + 2 * a - (2 * a + 1)) / 1 + 1 = t by omega,
      show (v + 2 * 0 - kj) / 1 + 1 = v - kj + 1 by omega] at hy
  have hbn : batchNorm2dShape cout [n, cout, t, v - kj + 1] =
      .ok [n, cout, t, v - kj + 1] := by
    simp [batchNorm2dShape]
  simp [TemporalConvolution.forwardShape, hy, hbn, exc_bind_ok]

theorem blockShape_ok_aux (cin cout v n t : ℕ) (r : Bool) (ht : 1 ≤ t)
    (hv : 1 ≤ v) :
    ST_BLN_block.forwardShape cin cout v v 1 r [n, cin, t, v] =
      .ok [n, cout, t, v] := by
  have hg := bilinearShape_ok_aux cin cout v n t ht hv
  have htc := tconvShape_ok_aux cout cout 1 9 n t v ⟨4, by norm_num⟩ ht hv
  have htr := tconvShape_ok_aux cin cout 1 9 n t v ⟨4, by norm_num⟩ ht hv
  have hv1 : v - 1 + 1 = v := by omega
  rw [hv1] at htc htr
  cases r with
  | false =>
    simp [ST_BLN_block.forwardShape, hg, htc, exc_bind_ok]
  | true =>
    simp [ST_BLN_block.forwardShape, hg, htc, htr, addShape_self, exc_bind_ok]

theorem stblnShape_default_ok_aux (nc n t : ℕ) (hn : 1 ≤ n) (ht : 1 ≤ t) :
    STBLN.forwardShape nc 51 1 2 [n, 2, t, 51, 1] = .ok [n, nc] := by
  have hv1 : viewShape [n, 102, t] [n, 1, 51, 2, t] = .ok [n, 102, t] := by
    simp only [viewShape, prodS, List.foldr]
    rw [if_pos (by ring)]
  have hbn : batchNorm1dShape 102 [n, 102, t] = .ok [n, 102, t] := by
    simp [batchNorm1dShape]
  have hv2 : viewShape [n, 1, 51, 2, t] [n, 102, t] = .ok [n, 1, 51, 2, t] := by
    simp only [viewShape, prodS, List.foldr]
    rw [if_pos (by ring)]
  have hv3 : viewShape [n, 2, t, 51] [n, 1, 51, 2, t] = .ok [n, 2, t, 51] := by
    simp only [viewShape, prodS, List.foldr]
    rw [if_pos (by ring)]
  have h51 : (1 : ℕ) ≤ 51 := by norm_num
  have h1 := blockShape_ok_aux 2 8 51 n t false ht h51
  have h2 := blockShape_ok_aux 8 16 51 n t true ht h51
  have h3 := blockShape_ok_aux 16 16 51 n t true ht h51
  have h4 := blockShape_ok_aux 16 32 51 n t true ht h51
  have h5 := blockShape_ok_aux 32 32 51 n t true ht h51
  have h6 := blockShape_ok_aux 32 64 51 n t true ht h51
  have h7 := blockShape_ok_aux 64 64 51 n t true ht h51
  have hn64 : 0 < n * 64 := by omega
  have hvi : viewInferShape [n, 1, 64] [n, 64, t, 51] = .ok [n, 1, 64, t * 51] := by
    have hp : prodS [n, 1, 64] = n * 64 := by simp [prodS]
    have hs : prodS [n, 64, t, 51] = n * 64 * (t * 51) := by
      simp [prodS]; ring
    simp only [viewInferShape, hp, hs]
    rw [if_pos ⟨hn64, ⟨t * 51, rfl⟩⟩]
    rw [Nat.mul_div_cancel_left _ hn64]
    rfl
  have hfc : linearShape 64 nc [n, 64] = .ok [n, nc] := by
    simp [linearShape]
  simp [STBLN.forwardShape, hv1, hbn, hv2, hv3, h1, h2, h3, h4, h5, h6, h7,
    hvi, hfc, meanDimShape, List.eraseIdx, exc_bind_ok]

/-! ## Claim theorems: shape behaviour -/

/-- C1: for every input of shape `[N, 2, T, 51, 1]` (with `N ≥ 1` and
`T ≥ 1`, which makes every convolution of the stack well-sized) fed to an
`STBLN` built with the defaults `num_point=51`, `num_person=1`,
`in_channels=2`, the forward pass succeeds and returns a tensor of shape
exactly `[N, num_class]`. -/
theorem STBLN.forward_default_output_shape (num_class N T : ℕ)
    (hn : 1 ≤ N) (ht : 1 ≤ T) :
    STBLN.forwardShape num_class 51 1 2 [N, 2, T, 51, 1] =
      .ok [N, num_class] :=
  stblnShape_default_ok_aux num_class N T hn ht

/-- Witness for C1 at `N = 2`, `T = 30`, `num_class = 6`. -/
theorem STBLN.forward_default_output_shape_w :
    STBLN.forwardShape 6 51 1 2 [2, 2, 30, 51, 1] = .ok [2, 6] :=
  STBLN.forward_default_output_shape 6 2 30 (by norm_num) (by norm_num)

/-- C5: every `ST_BLN_block` of the concrete `STBLN` configuration
(`graph_dim1 = graph_dim2 = num_point`, stride 1, any channel widths,
either residual flag) maps an input with joint dimension `num_point` to an
output with the same joint dimension (and the same time length). -/
theorem ST_BLN_block.forward_preserves_joints (cin cout num_point n t : ℕ)
    (r : Bool) (ht : 1 ≤ t) (hv : 1 ≤ num_point) :
    ST_BLN_block.forwardShape cin cout num_point num_point 1 r
      [n, cin, t, num_point] = .ok [n, cout, t, num_point] :=
  blockShape_ok_aux cin cout num_point n t r ht hv

/-- Witness for C5 at the first block's configuration. -/
theorem ST_BLN_block.forward_preserves_joints_w :
    ST_BLN_block.forwardShape 2 8 51 51 1 false [1, 2, 9, 51] =
      .ok [1, 8, 9, 51] :=
  ST_BLN_block.forward_preserves_joints 2 8 51 1 9 false (by norm_num)
    (by norm_num)

/-- C6 (amended): a `TemporalConvolution` with stride 1 preserves the time
length for every **odd** configured kernel height (the padding
`(k-1)/2` matches exactly); the joint extent shrinks to `v - kj + 1`. -/
theorem TemporalConvolution.forward_time_preserving
    (cin cout kj k n t v : ℕ) (hk : Odd k) (ht : 1 ≤ t) (hkj : kj ≤ v) :
    TemporalConvolution.forwardShape cin cout kj k 1 [n, cin, t, v] =
      .ok [n, cout, t, v - kj + 1] :=
  tconvShape_ok_aux cin cout kj k n t v hk ht hkj

/-- Witness for C6 at the default kernel height 9. -/
theorem TemporalConvolution.forward_time_preserving_w :
    TemporalConvolution.forwardShape 2 4 1 9 1 [1, 2, 30, 51] =
      .ok [1, 4, 30, 51] := by
  have h := TemporalConvolution.forward_time_preserving 2 4 1 9 1 30 51
    ⟨4, by norm_num⟩ (by norm_num) (by norm_num)
  simpa using h

/-- Counterexample for C6 as stated: with the even kernel height 4 at
stride 1, the padding `(4-1)/2 = 1` does **not** preserve the time
length: an input of time length 5 comes out with time length 4. -/
theorem TemporalConvolution.forward_even_kernel_cex :
    TemporalConvolution.forwardShape 1 1 1 4 1 [1, 1, 5, 1] =
      .ok [1, 1, 4, 1] ∧ (4 : ℕ) ≠ 5 :=
  ⟨rfl, by decide⟩

/-- C2 (amended): for `graph_dim1 = graph_dim2` — the only configuration
whose forward pass returns at all for general `T` — `BilinearMapping`
returns a tensor whose joint (last) dimension equals `graph_dim2`. -/
theorem BilinearMapping.forward_output_joint_dim (cin cout v n t : ℕ)
    (ht : 1 ≤ t) (hv : 1 ≤ v) :
    BilinearMapping.forwardShape cin cout v v [n, cin, t, v] =
      .ok [n, cout, t, v] :=
  bilinearShape_ok_aux cin cout v n t ht hv

/-- Witness for C2 at a concrete configuration. -/
theorem BilinearMapping.forward_output_joint_dim_w :
    BilinearMapping.forwardShape 2 8 51 51 [1, 2, 9, 51] =
      .ok [1, 8, 9, 51] :=
  BilinearMapping.forward_output_joint_dim 2 8 51 1 9 (by norm_num)
    (by norm_num)

/-- Counterexample for C2 as stated: with `graph_dim1 = 2 ≠ 3 =
graph_dim2` and input `[1, 1, 5, 2]`, the residual convolution of kernel
`(3, 2)` produces a `[1, 1, 3, 1]` tensor, and the in-place addition to
the `[1, 1, 5, 3]` main path fails the broadcast check: forward raises
instead of returning a tensor with last dimension `graph_dim2`. -/
theorem BilinearMapping.forward_dim_mismatch_cex :
    BilinearMapping.forwardShape 1 1 2 3 [1, 1, 5, 2] = .error .badd :=
  rfl

/-- C7 (amended): constructing `STBLN` with `num_point = 51` and feeding
an input whose joint count `V ≠ 51` (channels and persons matching the
configuration) raises a shape-mismatch error — but at the `data_bn`
batch-normalization step (the very first feature-count check), not at a
reshape or matrix-multiply step; nothing is recovered. -/
theorem STBLN.forward_wrong_num_point_err (num_class n t v : ℕ)
    (hv : v ≠ 51) :
    STBLN.forwardShape num_class 51 1 2 [n, 2, t, v, 1] =
      .error .bnorm := by
  have hv1 : viewShape [n, v * 2, t] [n, 1, v, 2, t] = .ok [n, v * 2, t] := by
    simp only [viewShape, prodS, List.foldr]
    rw [if_pos (by ring)]
  have hbn : batchNorm1dShape 102 [n, v * 2, t] = .error .bnorm := by
    simp only [batchNorm1dShape]
    rw [if_neg (by omega)]
  simp [STBLN.forwardShape, hv1, hbn, exc_bind_ok, exc_bind_err]

/-- Witness for C7's amended statement at `V = 50`. -/
theorem STBLN.forward_wrong_num_point_err_w :
    STBLN.forwardShape 6 51 1 2 [1, 2, 9, 50, 1] = .error .bnorm :=
  STBLN.forward_wrong_num_point_err 6 1 9 50 (by norm_num)

/-- Counterexample for C7 as stated: at `V = 50` the failure is the
feature-count check of `data_bn` (`ShapeErr.bnorm`), which is neither the
reshape nor the matrix-multiply site the claim names. -/
theorem STBLN.forward_wrong_num_point_cex :
    STBLN.forwardShape 6 51 1 2 [2, 2, 30, 50, 1] = .error .bnorm ∧
      ShapeErr.bnorm ≠ ShapeErr.matmul ∧ ShapeErr.bnorm ≠ ShapeErr.view :=
  ⟨rfl, by decide, by decide⟩

/-! ## Claim theorems: weight initialization -/

/-- C3 (amended): for a convolution layer passed to `weights_init` with
`bs ≠ 1`, the weight is drawn from a normal distribution of variance
`2 / (out_channels * in_channels * kernel_h * bs)` — the product of the
first three sizes of the weight tensor `[cout, cin, kh, kw]`, not
`out_channels * kernel_h * kernel_w` — and the bias is set to zero. -/
theorem weights_init_conv_bs_ne_one (cout cin kh kw : ℕ) (bs : ℚ)
    (h : bs ≠ 1) :
    weights_init (.conv2d cout cin kh kw) bs =
      ⟨.normalVar 0 (2 / ((cout : ℚ) * (cin : ℚ) * (kh : ℚ) * bs)),
       .constV 0⟩ := by
  simp [weights_init, h]

/-- Witness for C3's amended statement at the first block's `g_conv`
layer: `Conv2d(2, 8, 1)` with `bs = 3` gets variance `2/48 = 1/24`. -/
theorem weights_init_conv_bs_ne_one_w :
    weights_init (.conv2d 8 2 1 1) 3 =
      ⟨.normalVar 0 (1 / 24), .constV 0⟩ := by
  have h := weights_init_conv_bs_ne_one 8 2 1 1 3 (by norm_num)
  rw [h]
  norm_num

/-- Counterexample for C3 as stated: for `Conv2d(2, 8, 1)` (weight sizes
`[8, 2, 1, 1]`) with `bs = 3`, the claimed variance
`2 / (out_channels * kernel_h * kernel_w * bs) = 2/24` is **not** what the
code draws — the code uses `2 / (8 * 2 * 1 * 3) = 2/48`. -/
theorem weights_init_conv_variance_cex :
    (weights_init (.conv2d 8 2 1 1) 3).weight ≠
      .normalVar 0 (2 / ((8 : ℚ) * 1 * 1 * 3)) := by
  simp [weights_init]
  norm_num

/-- C10: a `BilinearMapping` built with `graph_dim1 = graph_dim2` leaves
both residual-path layers (the 1×1 convolution and its `BatchNorm2d`) at
their library defaults — they are never passed through `weights_init` —
whereas with `graph_dim1 ≠ graph_dim2` both are initialized with `bs = 1`
(Kaiming fan-out weight and zero bias for the convolution; constant-1
weight and zero bias for the normalization). -/
theorem BilinearMapping.initPlan_residual (cin cout d1 d2 : ℕ) :
    (d1 = d2 →
      (BilinearMapping.initPlan cin cout d1 d2).res_conv =
        ⟨.libDefault, .libDefault⟩ ∧
      (BilinearMapping.initPlan cin cout d1 d2).res_bn =
        ⟨.libDefault, .libDefault⟩) ∧
    (d1 ≠ d2 →
      (BilinearMapping.initPlan cin cout d1 d2).res_conv =
        ⟨.kaimingFanOut, .constV 0⟩ ∧
      (BilinearMapping.initPlan cin cout d1 d2).res_bn =
        ⟨.constV 1, .constV 0⟩) := by
  constructor
  · intro h
    simp [BilinearMapping.initPlan, h]
  · intro h
    simp [BilinearMapping.initPlan, h, weights_init]

/-- Witness for C10: both branches at concrete dimensions. -/
theorem BilinearMapping.initPlan_residual_w :
    (BilinearMapping.initPlan 2 8 51 51).res_conv =
      ⟨.libDefault, .libDefault⟩ ∧
    (BilinearMapping.initPlan 2 8 51 25).res_conv =
      ⟨.kaimingFanOut, .constV 0⟩ :=
  ⟨((BilinearMapping.initPlan_residual 2 8 51 51).1 rfl).1,
   ((BilinearMapping.initPlan_residual 2 8 51 25).2 (by norm_num)).1⟩

/-! ## Claim theorems: value behaviour -/

/-- C4: for every `ST_BLN_block` constructed with `residual=False` (its
residual field is `none`, i.e. the Python `lambda x: 0`), the forward
output equals `relu(tcn(gcn(x)))` exactly: the residual path contributes
exactly zero, for every input, parameter values, stride, mode and
reciprocal-square-root primitive. -/
theorem ST_BLN_block.forward_no_residual (rsq : ℚ → ℚ) (training : Bool)
    {cin cout v n t : ℕ} (s : ℕ) (bp : ST_BLN_block cin cout v)
    (x : Tensor4 n cin t v) (h : bp.residual = none) :
    (ST_BLN_block.forward rsq training s bp x).1 =
      relu4 ((TemporalConvolution.forward rsq training s bp.tcn
        (BilinearMapping.forward rsq training bp.gcn x).1).1) := by
  obtain ⟨g, tc, r⟩ := bp
  cases r with
  | none =>
    funext a b i j
    simp [ST_BLN_block.forward]
  | some rp => simp at h

/-- Witness for C4 at a concrete zero-parameter block on an all-ones
input. -/
theorem ST_BLN_block.forward_no_residual_w :
    (ST_BLN_block.forward (fun q => q) false 1 (ST_BLN_block.zero 2 8 1 false)
      ((fun _ _ _ _ => 1) : Tensor4 1 2 1 1)).1 =
      relu4 ((TemporalConvolution.forward (fun q => q) false 1
        (ST_BLN_block.zero 2 8 1 false).tcn
        (BilinearMapping.forward (fun q => q) false
          (ST_BLN_block.zero 2 8 1 false).gcn
          ((fun _ _ _ _ => 1) : Tensor4 1 2 1 1)).1).1) :=
  ST_BLN_block.forward_no_residual (fun q => q) false 1
    (ST_BLN_block.zero 2 8 1 false) _ rfl

/-- C9: in evaluation mode (dropout disabled), `STBLN.forward` is
deterministic: its output does not depend on the state of the random
stream, so two passes on the same input with the same parameters produce
identical outputs. -/
theorem STBLN.forward_eval_deterministic (rsq : ℚ → ℚ)
    {num_class num_point num_person n t : ℕ}
    (ps : STBLN num_class num_point num_person)
    (x : Tensor5 n 2 t num_point num_person) (g1 g2 : RNG) :
    (STBLN.forward rsq false g1 ps x).1 =
      (STBLN.forward rsq false g2 ps x).1 := rfl

theorem bn1_eval_state_aux {n c l : ℕ} (rsq : ℚ → ℚ) (bn : BN c)
    (x : Tensor3 n c l) : (batchNorm1d rsq false bn x).2 = bn := rfl

theorem tconv_eval_state_aux {n cin t v : ℕ} {cout : ℕ} (rsq : ℚ → ℚ)
    (s : ℕ) (p : TemporalConvolution cin cout) (x : Tensor4 n cin t v) :
    (TemporalConvolution.forward rsq false s p x).2 = p := rfl

theorem gcn_eval_state_aux {n cin t v : ℕ} {cout : ℕ} (rsq : ℚ → ℚ)
    (p : BilinearMapping cin cout v) (x : Tensor4 n cin t v) :
    (BilinearMapping.forward rsq false p x).2 = p := rfl

theorem block_eval_state_aux {n cin t v : ℕ} {cout : ℕ} (rsq : ℚ → ℚ)
    (s : ℕ) (bp : ST_BLN_block cin cout v) (x : Tensor4 n cin t v) :
    (ST_BLN_block.forward rsq false s bp x).2 = bp := by
  obtain ⟨g, tc, r⟩ := bp
  cases r <;> rfl

/-- C8 (amended): in evaluation mode a forward pass of `STBLN` mutates
nothing: every learned parameter and every stored batch-normalization
statistic is identical before and after the call, for every input. -/
theorem STBLN.forward_eval_preserves_state (rsq : ℚ → ℚ)
    {num_class num_point num_person n t : ℕ} (g : RNG)
    (ps : STBLN num_class num_point num_person)
    (x : Tensor5 n 2 t num_point num_person) :
    (STBLN.forward rsq false g ps x).2.1 = ps := by
  obtain ⟨dbn, l1, l2, l3, l4, l5, l6, l7, fw, fb⟩ := ps
  simp only [STBLN.forward, block_eval_state_aux, bn1_eval_state_aux]

/-- Counterexample for C8 as stated: a training-mode forward pass (the
mode a freshly constructed module is in) **does** mutate persistent state:
on `STBLN.sample` with an all-ones input, the running mean of `data_bn`
moves from `0` to `1/10`. -/
theorem STBLN.forward_training_mutates_bn_cex :
    (STBLN.forward (fun _ => 1) true (fun _ => 1) STBLN.sample
        sampleInput).2.1.data_bn.rmean ⟨0, by norm_num⟩ = 1 / 10 ∧
      STBLN.sample.data_bn.rmean ⟨0, by norm_num⟩ = 0 ∧
      (1 / 10 : ℚ) ≠ 0 := by
  refine ⟨?_, rfl, by norm_num⟩
  simp only [STBLN.forward, STBLN.sample, batchNorm1d, BN.fresh, toDataBnInput,
    sampleInput, if_true]
  norm_num [Fin.sum_univ_succ]
